import Mathlib

/-!
Verification development for the experiment/build file parser of the
cerebellum large-scale simulation repository
(src/cxx_tools/file_io/file_parse.cpp).

The development shallowly embeds the three-stage pipeline
(tokenizer, lexer, recursive-descent region parser) and the trial
hierarchy resolver.  All recursive loops of the C++ source are embedded
as fuel-indexed functions; running out of fuel is a distinguished
outcome (`PErr.noFuel`), and dereferencing an iterator past the end of
the token buffer (undefined behaviour in the source) is the distinguished
outcome `PErr.ub`.  Calls to `exit(n)` are the outcome `PErr.exitc n`.
Machine integers (`ct_uint32_t`) are modelled as `Nat` reduced modulo
2^32; `std::stoi` is modelled as a partial function returning `none`
where the C++ function would throw.
-/

set_option maxRecDepth 20000

namespace FileParse

/-- Lexeme tags, mirroring the `lexeme` enum of the source. -/
inductive lexeme where
  | NONE
  | BEGIN_MARKER
  | END_MARKER
  | REGION
  | REGION_TYPE
  | TYPE_NAME
  | VAR_IDENTIFIER
  | VAR_VALUE
  | DEF
  | DEF_TYPE
  | SINGLE_COMMENT
  | DOUBLE_COMMENT_BEGIN
  | DOUBLE_COMMENT_END
  | NEW_LINE
deriving DecidableEq, Repr

open lexeme

/-- A lexed token: a lexeme tag together with the raw token text
(`lexed_token` of the source). -/
structure lexed_token where
  lex : lexeme
  raw_token : String
deriving DecidableEq, Repr

/-- A tokenized file: the per-line lists of whitespace-delimited raw
tokens (`tokenized_file::tokens` of the source). -/
abbrev tokenized_file := List (List String)

/-- A lexed file: the flat list of lexed tokens
(`lexed_file::tokens` of the source). -/
abbrev lexed_file := List lexed_token

/-- The literal key used in `token_defs` for variable identifiers. -/
def var_id_regex_str : String := "[a-zA-Z_]{1}[a-zA-Z0-9_]*"

/-- The literal key used in `token_defs` for variable values. -/
def var_val_regex_str : String := "[+-]?([0-9]*[.])?[0-9]*([e][+-]?[0-9]+)?"

/-- First-match lookup in an association list; the model of lookup in the
ordered/hashed maps of the source (keys are unique, so first-match agrees
with `std::map::find` / `operator[]` reads). -/
def assoc_lookup {α : Type} : List (String × α) → String → Option α
  | [], _ => none
  | (k, v) :: rest, s => if k = s then some v else assoc_lookup rest s

/-- Insert-or-replace in an association list; the model of
`map[key] = value` on the maps of the source. -/
def assoc_insert {α : Type} : List (String × α) → String → α → List (String × α)
  | [], k, v => [(k, v)]
  | (k', v') :: rest, k, v =>
    if k' = k then (k, v) :: rest else (k', v') :: assoc_insert rest k v

/-- The entries of the keyword table `token_defs` of the source, in
source order.  The two regex pattern strings are themselves literal keys
of the map, exactly as in the source (the duplicated "activity" entry of
the source initializer collapses, as it does in `std::map`). -/
def token_defs_entries : List (String × lexeme) :=
  [("begin", BEGIN_MARKER),
   ("end", END_MARKER),
   ("filetype", REGION),
   ("section", REGION),
   ("build", REGION_TYPE),
   ("run", REGION_TYPE),
   ("connectivity", REGION_TYPE),
   ("activity", REGION_TYPE),
   ("trial_def", REGION_TYPE),
   ("mf_input", REGION_TYPE),
   ("trial_spec", REGION_TYPE),
   ("int", TYPE_NAME),
   ("float", TYPE_NAME),
   (var_id_regex_str, VAR_IDENTIFIER),
   (var_val_regex_str, VAR_VALUE),
   ("def", DEF),
   ("trial", DEF_TYPE),
   ("block", DEF_TYPE),
   ("session", DEF_TYPE),
   ("experiment", DEF_TYPE),
   ("//", SINGLE_COMMENT),
   ("/*", DOUBLE_COMMENT_BEGIN),
   ("*/", DOUBLE_COMMENT_END)]

/-- Exact-match keyword lookup (`token_defs.find(raw_token)`). -/
def token_defs (s : String) : Option lexeme :=
  assoc_lookup token_defs_entries s

/-- First character class of the identifier pattern `[a-zA-Z_]`. -/
def is_id_start (c : Char) : Bool := c.isAlpha || c = '_'

/-- Continuation character class of the identifier pattern `[a-zA-Z0-9_]`. -/
def is_id_char (c : Char) : Bool := c.isAlphanum || c = '_'

/-- Full match of the identifier regex `[a-zA-Z_]{1}[a-zA-Z0-9_]*`
(`std::regex_match` against `var_id_regex`). -/
def match_var_id (s : String) : Bool :=
  match s.data with
  | [] => false
  | c :: cs => is_id_start c && cs.all is_id_char

/-- Matcher of the tail `([e][+-]?[0-9]+)?` of the value regex: either
nothing remains, or a lowercase `e`, an optional sign, and at least one
digit consuming the rest of the token. -/
def exp_part : List Char → Bool
  | [] => true
  | 'e' :: cs =>
    let cs2 : List Char := match cs with
      | '+' :: r => r
      | '-' :: r => r
      | r => r
    !cs2.isEmpty && cs2.all Char.isDigit
  | _ => false

/-- Full match of the value regex `[+-]?([0-9]*[.])?[0-9]*([e][+-]?[0-9]+)?`
(`std::regex_match` against `var_val_regex`): optional sign, then digits,
then optionally a dot followed by digits, then the optional exponent.
Every component is optional, so the sign alone or a dot alone matches. -/
def match_var_val (s : String) : Bool :=
  let cs : List Char := match s.data with
    | '+' :: r => r
    | '-' :: r => r
    | r => r
  let rest1 := cs.dropWhile Char.isDigit
  match rest1 with
  | '.' :: cs2 => exp_part (cs2.dropWhile Char.isDigit)
  | _ => exp_part rest1

/-- Per-token classification of the lexer loop in `lex_tokenized_file`:
exact lookup in `token_defs` first, then the identifier pattern, then the
value pattern.  Modelled from the spec: a token matching none of the
three is assigned lexeme `None` (the default of the `lexed_token` struct,
declared in the header `file_parse.h`, which is not part of the sources
given; spec section 4.2 item (4) fixes the default to `None`). -/
def classify_token (s : String) : lexeme :=
  match token_defs s with
  | some lx => lx
  | none =>
    if match_var_id s then VAR_IDENTIFIER
    else if match_var_val s then VAR_VALUE
    else NONE

/-- Builds one lexed token from a raw token. -/
def lex_one_token (s : String) : lexed_token :=
  ⟨classify_token s, s⟩

/-- Whitespace as recognised by `operator>>` on a `std::stringstream`
(the C locale `isspace`). -/
def is_cpp_space (c : Char) : Bool :=
  c = ' ' || c = '\t' || c = '\n' || c = '\r' || c = '\x0b' || c = '\x0c'

/-- Accumulating splitter: cuts a character list at whitespace runs,
dropping empty pieces, exactly as repeated `line_buf >> token` does. -/
def split_tokens_aux : List Char → List Char → List String
  | [], acc => if acc.isEmpty then [] else [String.mk acc.reverse]
  | c :: cs, acc =>
    if is_cpp_space c then
      if acc.isEmpty then split_tokens_aux cs []
      else String.mk acc.reverse :: split_tokens_aux cs []
    else split_tokens_aux cs (c :: acc)

/-- The whitespace-delimited tokens of one source line. -/
def split_tokens (s : String) : List String := split_tokens_aux s.data []

/-- The tokenizer `tokenize_file`, modelled on the list of lines returned
by `getline` (file access and `IoError` are outside the embedding: the
caller hands over the lines of an opened file).  Faithful to the source
loop: a line is skipped only when it is the empty string (`line == ""`);
every other line is split and pushed, even when the split is empty. -/
def tokenize_file : List String → tokenized_file
  | [] => []
  | line :: rest =>
    if line = "" then tokenize_file rest
    else split_tokens line :: tokenize_file rest

/-- The lexer `lex_tokenized_file`: classifies each raw token of each
line and appends the artificial `NEW_LINE` token after every line. -/
def lex_tokenized_file : tokenized_file → lexed_file
  | [] => []
  | line :: rest =>
    line.map lex_one_token ++ (⟨NEW_LINE, "\n"⟩ :: lex_tokenized_file rest)

theorem assoc_lookup_mem {α : Type} :
    ∀ (l : List (String × α)) (s : String) (v : α),
      assoc_lookup l s = some v → v ∈ l.map Prod.snd := by
  intro l
  induction l with
  | nil => intro s v h; exact Option.noConfusion h
  | cons p rest ih =>
    intro s v h
    unfold assoc_lookup at h
    by_cases hk : p.1 = s
    · simp only [hk, if_pos rfl] at h
      cases h
      exact List.mem_cons_self _ _
    · simp only [if_neg hk] at h
      exact List.mem_cons_of_mem _ (ih s v h)

theorem token_defs_ne_newline : ∀ s lx, token_defs s = some lx → lx ≠ NEW_LINE := by
  intro s lx h
  have hm := assoc_lookup_mem token_defs_entries s lx h
  intro he
  subst he
  revert hm
  decide

theorem classify_token_ne_newline (s : String) : classify_token s ≠ NEW_LINE := by
  unfold classify_token
  cases h : token_defs s with
  | some lx => exact token_defs_ne_newline s lx h
  | none =>
    split_ifs <;> simp

theorem lex_line_filter_newline (line : List String) :
    (line.map lex_one_token).filter (fun tk => !decide (tk.lex = NEW_LINE)) =
      line.map lex_one_token := by
  rw [List.filter_eq_self]
  intro tk htk
  rcases List.mem_map.mp htk with ⟨s, _, rfl⟩
  simpa using classify_token_ne_newline s

theorem lex_line_filter_newline_none (line : List String) :
    (line.map lex_one_token).filter (fun tk => decide (tk.lex = NEW_LINE)) = [] := by
  rw [List.filter_eq_nil_iff]
  intro tk htk
  rcases List.mem_map.mp htk with ⟨s, _, rfl⟩
  simpa using classify_token_ne_newline s

/-- C6: Tokenize-then-lex round trip: concatenating the `raw_token`
fields of the lexed tokens, excluding the tokens whose lexeme is
`NEW_LINE` (no raw token is ever classified `NEW_LINE`, so these are
exactly the synthetic sentinels, of which the lexer appends one per
source line), reproduces exactly the concatenation of the tokenizer's
whitespace-delimited token lines. -/
theorem c6_lex_roundtrip : ∀ t : tokenized_file,
    (((lex_tokenized_file t).filter
        (fun tk => !decide (tk.lex = NEW_LINE))).map lexed_token.raw_token = t.flatten) ∧
    ((lex_tokenized_file t).filter (fun tk => decide (tk.lex = NEW_LINE))).length =
      t.length := by
  intro t
  induction t with
  | nil => exact ⟨rfl, rfl⟩
  | cons line rest ih =>
    constructor
    · show (((line.map lex_one_token ++
          (⟨NEW_LINE, "\n"⟩ :: lex_tokenized_file rest)).filter
            (fun tk => !decide (tk.lex = NEW_LINE))).map lexed_token.raw_token) = _
      rw [List.filter_append, lex_line_filter_newline]
      have hstep : ((⟨NEW_LINE, "\n"⟩ :: lex_tokenized_file rest).filter
          (fun tk => !decide (tk.lex = NEW_LINE))) =
          (lex_tokenized_file rest).filter (fun tk => !decide (tk.lex = NEW_LINE)) := by
        simp [List.filter]
      rw [hstep, List.map_append, ih.1, List.flatten_cons]
      congr 1
      rw [List.map_map]
      have : (lexed_token.raw_token ∘ lex_one_token) = id := rfl
      rw [this, List.map_id]
    · show (((line.map lex_one_token ++
          (⟨NEW_LINE, "\n"⟩ :: lex_tokenized_file rest)).filter
            (fun tk => decide (tk.lex = NEW_LINE))).length) = _
      rw [List.filter_append, lex_line_filter_newline_none]
      have hstep : ((⟨NEW_LINE, "\n"⟩ :: lex_tokenized_file rest).filter
          (fun tk => decide (tk.lex = NEW_LINE))) =
          ⟨NEW_LINE, "\n"⟩ ::
            (lex_tokenized_file rest).filter (fun tk => decide (tk.lex = NEW_LINE)) := by
        simp [List.filter]
      rw [hstep]
      simpa using ih.2

/-- C7: Lexer classification order: exact keyword lookup is applied
first, so any raw token present in `token_defs` receives the table's
lexeme; only on lookup failure is the identifier pattern and then the
value pattern tried; a token matching none of the three is assigned
lexeme `NONE` and is still emitted with its raw text (no lex-time
error).  The keywords "begin", "int" and "trial" all match the
identifier pattern, yet are never classified `VAR_IDENTIFIER`. -/
theorem c7_lexer_classification_order :
    (∀ s lx, token_defs s = some lx → classify_token s = lx) ∧
    (∀ s, token_defs s = none → match_var_id s = true →
        classify_token s = VAR_IDENTIFIER) ∧
    (∀ s, token_defs s = none → match_var_id s = false → match_var_val s = true →
        classify_token s = VAR_VALUE) ∧
    (∀ s, token_defs s = none → match_var_id s = false → match_var_val s = false →
        classify_token s = NONE) ∧
    (match_var_id "begin" = true ∧ classify_token "begin" = BEGIN_MARKER) ∧
    (match_var_id "int" = true ∧ classify_token "int" = TYPE_NAME) ∧
    (match_var_id "trial" = true ∧ classify_token "trial" = DEF_TYPE) ∧
    (∀ s, lex_one_token s = ⟨classify_token s, s⟩) := by
  refine ⟨?_, ?_, ?_, ?_, ?_, ?_, ?_, ?_⟩
  · intro s lx h
    unfold classify_token
    rw [h]
  · intro s h hid
    simp [classify_token, h, hid]
  · intro s h hid hval
    simp [classify_token, h, hid, hval]
  · intro s h hid hval
    simp [classify_token, h, hid, hval]
  · exact ⟨by decide, by decide⟩
  · exact ⟨by decide, by decide⟩
  · exact ⟨by decide, by decide⟩
  · intro s
    rfl

/-- C7 witness: the keyword "begin" is in the table and is classified by
the table, through the first conjunct of the classification-order
theorem. -/
theorem c7_lexer_classification_order_witness :
    token_defs "begin" = some BEGIN_MARKER ∧ classify_token "begin" = BEGIN_MARKER :=
  ⟨by decide, c7_lexer_classification_order.1 "begin" BEGIN_MARKER (by decide)⟩

/-- C9 counterexample: a line consisting of a single space contains no
tokens, yet the tokenizer emits an empty raw line for it (the source
drops a line only when it is the empty string), contradicting the claim
that no token-less line contributes a raw line and that the output never
contains an empty raw line. -/
theorem c9_counterexample :
    tokenize_file [" "] = [[]] ∧ [] ∈ tokenize_file [" "] := by
  constructor
  · rfl
  · rw [show tokenize_file [" "] = [[]] from rfl]
    exact List.mem_singleton.mpr rfl

/-- C9 amended: the tokenizer drops exactly the literally empty lines;
every other line — including a whitespace-only line, which yields an
empty `RawLine` — contributes the ordered sequence of its
whitespace-delimited tokens, in source order. -/
theorem c9_amended :
    (∀ lines : List String,
        tokenize_file lines =
          (lines.filter (fun l => !decide (l = ""))).map split_tokens) ∧
    split_tokens " " = [] ∧ tokenize_file [" "] = [[]] := by
  refine ⟨?_, rfl, rfl⟩
  intro lines
  induction lines with
  | nil => rfl
  | cons line rest ih =>
    by_cases h : line = ""
    · simp [tokenize_file, h, ih]
    · simp [tokenize_file, h, ih, List.filter]

/-- Value of a digit string, most significant first. -/
def digits_val (ds : List Char) : Nat :=
  ds.foldl (fun a c => a * 10 + (c.toNat - '0'.toNat)) 0

/-- The modulus of `ct_uint32_t` arithmetic, 2^32. -/
def U32 : Nat := 4294967296

/-- Model of `std::stoi`: skip leading whitespace, one optional sign,
then the longest run of decimal digits.  Returns `none` where the C++
function throws: no digits at all (`std::invalid_argument`) or a value
outside the range of a 32-bit `int` (`std::out_of_range`). -/
def cpp_stoi (s : String) : Option Int :=
  let cs := s.data.dropWhile is_cpp_space
  let sgn : Int := match cs with
    | '-' :: _ => -1
    | _ => 1
  let cs2 : List Char := match cs with
    | '+' :: r => r
    | '-' :: r => r
    | r => r
  let ds := cs2.takeWhile Char.isDigit
  if ds.isEmpty then none
  else
    let v : Int := sgn * (digits_val ds : Int)
    if v < -(2 ^ 31) ∨ (2 ^ 31 - 1 : Int) < v then none else some v

/-- Composition of `std::stoi` followed by the implicit conversion of the `int` result
to `ct_uint32_t` (reduction modulo 2^32, two's complement for negative
values). -/
def stoiU32 (s : String) : Option Nat :=
  (cpp_stoi s).map (fun v => (v % (U32 : Int)).toNat)

/-- A `(label, count-or-value)` pair (`pair` of the source). -/
abbrev pair := String × String

/-- A typed variable declaration (`variable` of the source; `variable`
is reserved in Lean, hence the capital). -/
structure Variable where
  type_name : String
  identifier : String
  value : String
deriving DecidableEq, Repr

/-- The four maps of the trial hierarchy
(`parsed_trial_section` of the source). -/
structure parsed_trial_section where
  trial_map : List (String × List (String × Variable))
  block_map : List (String × List pair)
  session_map : List (String × List pair)
  experiment : List pair
deriving DecidableEq, Repr

/-- One flat key-to-variable section (`parsed_var_section` of the source). -/
structure parsed_var_section where
  param_map : List (String × Variable)
deriving DecidableEq, Repr

/-- A parsed experiment file (`parsed_expt_file` of the source). -/
structure parsed_expt_file where
  parsed_var_sections : List (String × parsed_var_section)
  parsed_trial_info : parsed_trial_section
deriving DecidableEq, Repr

/-- A parsed build file (`parsed_build_file` of the source). -/
structure parsed_build_file where
  parsed_var_sections : List (String × parsed_var_section)
deriving DecidableEq, Repr

/-- Resolution of a referenced label in `calculate_num_trials_helper`:
the source tests `session_map.find` first and `block_map.find` second,
with identical recursive bodies on the found vector, so the two tests
collapse into one prioritised lookup. -/
def hier_lookup (pt : parsed_trial_section) (lbl : String) : Option (List pair) :=
  match assoc_lookup pt.session_map lbl with
  | some v => some v
  | none => assoc_lookup pt.block_map lbl

/-- The summation loop of `calculate_num_trials_helper`: walks `in_vec`
with the running `temp_sum` accumulator `s` (a `ct_uint32_t`, so every
`+=` reduces modulo 2^32).  For each pair, `temp_count` is
`std::stoi(pair.second)` converted to `ct_uint32_t`; when the label is in
`session_map` (checked first) or `block_map`, the source calls the helper
recursively with `temp_count` as the in/out accumulator, which replaces
`temp_count` by `temp_count * (recursive sum) % 2^32` — that helper call
appears here as its unfolding `(calc_sum_loop f pt v 0).map (fun t => c * t % U32)`,
which is definitionally `calculate_num_trials_helper f pt v c`.
The fuel decreases on every recursive call; exhaustion yields `none`
(the source recursion has no guard and may not terminate). -/
def calc_sum_loop : Nat → parsed_trial_section → List pair → Nat → Option Nat
  | 0, _, _, _ => none
  | _ + 1, _, [], s => some s
  | f + 1, pt, p :: rest, s =>
    (stoiU32 p.2).bind (fun c =>
      (match hier_lookup pt p.1 with
       | some v => (calc_sum_loop f pt v 0).map (fun t => c * t % U32)
       | none => some c).bind (fun c' =>
        calc_sum_loop f pt rest ((s + c') % U32)))

/-- Function `calculate_num_trials_helper` of the source: sums the expanded
counts of `in_vec` into `temp_sum`, then multiplies the in/out
accumulator `temp_num_trials` by it (in `ct_uint32_t` arithmetic). -/
def calculate_num_trials_helper (fuel : Nat) (pt : parsed_trial_section)
    (in_vec : List pair) (acc : Nat) : Option Nat :=
  (calc_sum_loop fuel pt in_vec 0).map (fun s => acc * s % U32)

/-- Function `calculate_num_trials` of the source: the helper applied to the
experiment vector with the accumulator seeded at 1. -/
def calculate_num_trials (fuel : Nat) (pt : parsed_trial_section) : Option Nat :=
  calculate_num_trials_helper fuel pt pt.experiment 1

/-- The level-total formula stated by the specification, written as a
function of its own (not taken from the source): the total of a level is
the sum over the level's pairs of the pair's count multiplied by the
recursively computed total of the referenced session/block, or the
pair's count alone when the label is neither; all in `ct_uint32_t`
arithmetic.  Fuel discipline mirrors `calc_sum_loop` so that the two can
be compared at equal fuel. -/
def claim_level_total : Nat → parsed_trial_section → List pair → Option Nat
  | 0, _, _ => none
  | _ + 1, _, [] => some 0
  | f + 1, pt, p :: rest =>
    (stoiU32 p.2).bind (fun c =>
      (match hier_lookup pt p.1 with
       | some v => (claim_level_total f pt v).map (fun t => c * t % U32)
       | none => some c).bind (fun term =>
        (claim_level_total f pt rest).map (fun t => (term + t) % U32)))

theorem mul_mod_absorb (a b : Nat) : a * (b % U32) % U32 = a * b % U32 := by
  rw [Nat.mul_mod, Nat.mod_mod_of_dvd b (dvd_refl U32), ← Nat.mul_mod]

theorem claim_level_total_lt :
    ∀ f pt vec t, claim_level_total f pt vec = some t → t < U32 := by
  intro f pt vec t h
  match f, vec with
  | 0, _ => exact Option.noConfusion h
  | _ + 1, [] =>
    cases h
    decide
  | f + 1, p :: rest =>
    simp only [claim_level_total] at h
    cases hstoi : stoiU32 p.2 with
    | none =>
      rw [hstoi, Option.none_bind] at h
      exact Option.noConfusion h
    | some c =>
      rw [hstoi, Option.some_bind] at h
      cases hsub : (match hier_lookup pt p.1 with
             | some v => (claim_level_total f pt v).map (fun t => c * t % U32)
             | none => some c) with
      | none =>
        rw [hsub, Option.none_bind] at h
        exact Option.noConfusion h
      | some term =>
        rw [hsub, Option.some_bind] at h
        cases hrest : claim_level_total f pt rest with
        | none =>
          rw [hrest, Option.map_none'] at h
          exact Option.noConfusion h
        | some t2 =>
          rw [hrest, Option.map_some'] at h
          cases h
          exact Nat.mod_lt _ (by decide)

theorem calc_sum_loop_agrees :
    ∀ f pt vec s, s < U32 →
      calc_sum_loop f pt vec s =
        (claim_level_total f pt vec).map (fun t => (s + t) % U32) := by
  intro f
  induction f with
  | zero => intro pt vec s _; rfl
  | succ f ih =>
    intro pt vec s hs
    match vec with
    | [] =>
      show some s = some ((s + 0) % U32)
      rw [Nat.add_zero, Nat.mod_eq_of_lt hs]
    | p :: rest =>
      simp only [calc_sum_loop, claim_level_total]
      cases hstoi : stoiU32 p.2 with
      | none => rw [Option.none_bind, Option.none_bind, Option.map_none']
      | some c =>
        rw [Option.some_bind, Option.some_bind]
        have hsub :
            (match hier_lookup pt p.1 with
             | some v => (calc_sum_loop f pt v 0).map (fun t => c * t % U32)
             | none => some c) =
            (match hier_lookup pt p.1 with
             | some v => (claim_level_total f pt v).map (fun t => c * t % U32)
             | none => some c) := by
          cases hier_lookup pt p.1 with
          | some v =>
            show (calc_sum_loop f pt v 0).map (fun t => c * t % U32) =
              (claim_level_total f pt v).map (fun t => c * t % U32)
            rw [ih pt v 0 (by decide)]
            cases claim_level_total f pt v with
            | none => rfl
            | some t =>
              rw [Option.map_some', Option.map_some', Option.map_some']
              rw [Nat.zero_add, mul_mod_absorb]
          | none => rfl
        rw [hsub]
        cases hsubv : (match hier_lookup pt p.1 with
             | some v => (claim_level_total f pt v).map (fun t => c * t % U32)
             | none => some c) with
        | none => rw [Option.none_bind, Option.none_bind, Option.map_none']
        | some term =>
          rw [Option.some_bind, Option.some_bind]
          rw [ih pt rest ((s + term) % U32) (Nat.mod_lt _ (by decide))]
          cases claim_level_total f pt rest with
          | none => rfl
          | some t2 =>
            rw [Option.map_some', Option.map_some', Option.map_some']
            rw [Nat.mod_add_mod]
            congr 1
            simp only [U32]
            omega

/-- The concrete hierarchy of the specification's example:
`experiment = [(A,2),(B,3)]`, `A` a trial, `B` a block containing
`[(C,4)]`, `C` a trial. -/
def c1_example_pt : parsed_trial_section :=
  ⟨[("A", []), ("C", [])], [("B", [("C", "4")])], [], [("A", "2"), ("B", "3")]⟩

/-- C1: `calculate_num_trials` composes multiplicatively over nesting
and additively over siblings: the helper applied to any vector with any
accumulator equals the accumulator times (modulo 2^32) the level total
of the specification's formula — the sum over the level's pairs of the
pair's count times the recursively computed total of the referenced
block/session, or the pair's count alone otherwise — and
`calculate_num_trials` itself equals that formula on the experiment
vector.  On the specification's example the result is
`2*1 + 3*4 = 14`. -/
theorem c1_calculate_num_trials_compositional :
    (∀ f pt vec acc,
        calculate_num_trials_helper f pt vec acc =
          (claim_level_total f pt vec).map (fun t => acc * t % U32)) ∧
    (∀ f pt, calculate_num_trials f pt = claim_level_total f pt pt.experiment) ∧
    calculate_num_trials 10 c1_example_pt = some 14 := by
  have hmain : ∀ f pt vec acc,
      calculate_num_trials_helper f pt vec acc =
        (claim_level_total f pt vec).map (fun t => acc * t % U32) := by
    intro f pt vec acc
    unfold calculate_num_trials_helper
    rw [calc_sum_loop_agrees f pt vec 0 (by decide)]
    cases claim_level_total f pt vec with
    | none => rfl
    | some t =>
      simp only [Option.map_some', Option.some.injEq]
      rw [Nat.zero_add, Nat.mul_mod, Nat.mod_mod_of_dvd t (dvd_refl U32), ← Nat.mul_mod]
  refine ⟨hmain, ?_, by decide⟩
  intro f pt
  unfold calculate_num_trials
  rw [hmain]
  cases hc : claim_level_total f pt pt.experiment with
  | none => rfl
  | some t =>
    simp only [Option.map_some', Option.some.injEq]
    rw [Nat.one_mul, Nat.mod_eq_of_lt (claim_level_total_lt f pt pt.experiment t hc)]

/-- Index of the first empty string in the trial-name array
(`std::find(td.trial_names, td.trial_names + td.num_trials, "")`). -/
def find_first_empty : List String → Option Nat
  | [] => none
  | s :: rest =>
    if s = "" then some 0 else (find_first_empty rest).map (· + 1)

/-- Writes `n` consecutive copies of `lbl` starting at index `i`
(the `while (first_empty != initial_empty + this_num_trials)` loop of
the source).  When `i + n` exceeds the array length the source writes
past the end of the allocation (undefined behaviour), modelled `none`. -/
def fill_from (names : List String) (i n : Nat) (lbl : String) : Option (List String) :=
  if i + n ≤ names.length then
    some (names.take i ++ List.replicate n lbl ++ names.drop (i + n))
  else none

/-- Runs a fallible step `n` times (the `for (i = 0; i < stoi(...); i++)`
loop of the source, whose body may recurse). -/
def iter_opt {α : Type} : Nat → (α → Option α) → α → Option α
  | 0, _, a => some a
  | n + 1, g, a =>
    match g a with
    | none => none
    | some a' => iter_opt n g a'

/-- Function `initialize_trial_names_helper` of the source: walks `in_vec`; a
label found in `trial_map` writes `stoi(count)` copies of itself at the
first empty slot of the name array (skipped silently when no slot is
empty); any other label loops `stoi(count)` times, recursing into
`block_map` (checked first) or `session_map`, and does nothing at all
when the label is in neither map.  Fuel bounds the recursion depth. -/
def initialize_trial_names_helper :
    Nat → parsed_trial_section → List pair → List String → Option (List String)
  | 0, _, _, _ => none
  | _ + 1, _, [], names => some names
  | f + 1, pt, p :: rest, names =>
    match (if (assoc_lookup pt.trial_map p.1).isSome then
            match find_first_empty names with
            | none => some names
            | some i =>
              match stoiU32 p.2 with
              | none => none
              | some n => fill_from names i n p.1
          else
            match stoiU32 p.2 with
            | none => none
            | some n =>
              iter_opt n (fun nm =>
                match assoc_lookup pt.block_map p.1 with
                | some v => initialize_trial_names_helper f pt v nm
                | none =>
                  match assoc_lookup pt.session_map p.1 with
                  | some v => initialize_trial_names_helper f pt v nm
                  | none => some nm) names) with
    | none => none
    | some names' => initialize_trial_names_helper f pt rest names'

/-- Function `allocate_trials_data` of the source, restricted to the name array:
`calloc` yields `num_trials` empty strings (the numeric arrays are
zero-filled and then fully overwritten by `initialize_trials_data`). -/
def allocate_trials_data (num_trials : Nat) : List String :=
  List.replicate num_trials ""

/-- Field read `pt_section.trial_map[name][field].value` of the source:
`std::map::operator[]` default-constructs missing entries, so a missing
trial or a missing field reads as the empty string. -/
def trial_field_value (pt : parsed_trial_section) (nm fld : String) : String :=
  (((assoc_lookup pt.trial_map nm).getD []) |> fun m =>
    (assoc_lookup m fld).getD ⟨"", "", ""⟩).value

/-- Acceptance of `std::stof` (`strtof`): after optional whitespace and
sign, a conversion exists exactly when a digit begins the mantissa or a
dot followed by a digit does.  Only acceptance is modelled (a rejection
is a thrown exception); the floating value itself is not needed by any
claim, so the accepted raw string is returned unconverted. -/
def cpp_stof_raw (s : String) : Option String :=
  let cs := s.data.dropWhile is_cpp_space
  let cs2 : List Char := match cs with
    | '+' :: r => r
    | '-' :: r => r
    | r => r
  match cs2 with
  | [] => none
  | c :: r =>
    if c.isDigit then some s
    else if c = '.' then
      match r with
      | [] => none
      | d :: _ => if d.isDigit then some s else none
    else none

/-- The flat trial table (`trials_data` of the source; `cs_percents`
keeps the raw strings accepted by `std::stof`). -/
structure trials_data where
  num_trials : Nat
  trial_names : List String
  use_pfpc_plasts : List Nat
  use_mfnc_plasts : List Nat
  use_css : List Nat
  cs_onsets : List Nat
  cs_lens : List Nat
  cs_percents : List String
  use_uss : List Nat
  us_onsets : List Nat
deriving DecidableEq, Repr

/-- Function `initialize_trials_data` of the source: expands the trial names,
then materialises the eight per-trial fields by `stoi`/`stof` on
`trial_map[name][field].value`. -/
def initialize_trials_data (fuel : Nat) (pt : parsed_trial_section)
    (num_trials : Nat) : Option trials_data := do
  let names ← initialize_trial_names_helper fuel pt pt.experiment
    (allocate_trials_data num_trials)
  let use_css ← names.mapM (fun nm => stoiU32 (trial_field_value pt nm "use_cs"))
  let use_pfpc_plasts ← names.mapM
    (fun nm => stoiU32 (trial_field_value pt nm "use_pfpc_plast"))
  let use_mfnc_plasts ← names.mapM
    (fun nm => stoiU32 (trial_field_value pt nm "use_mfnc_plast"))
  let cs_onsets ← names.mapM (fun nm => stoiU32 (trial_field_value pt nm "cs_onset"))
  let cs_lens ← names.mapM (fun nm => stoiU32 (trial_field_value pt nm "cs_len"))
  let cs_percents ← names.mapM
    (fun nm => cpp_stof_raw (trial_field_value pt nm "cs_percent"))
  let use_uss ← names.mapM (fun nm => stoiU32 (trial_field_value pt nm "use_us"))
  let us_onsets ← names.mapM (fun nm => stoiU32 (trial_field_value pt nm "us_onset"))
  pure ⟨num_trials, names, use_pfpc_plasts, use_mfnc_plasts, use_css,
        cs_onsets, cs_lens, cs_percents, use_uss, us_onsets⟩

/-- Function `translate_parsed_trials` of the source: trial count, allocation,
then initialization. -/
def translate_parsed_trials (fuel : Nat) (pe : parsed_expt_file) : Option trials_data := do
  let n ← calculate_num_trials fuel pe.parsed_trial_info
  initialize_trials_data fuel pe.parsed_trial_info n

/-- A hierarchy whose experiment references the label "X", which is in
none of the three maps. -/
def c4_pt : parsed_trial_section := ⟨[], [], [], [("X", "2")]⟩

/-- C4: a pair whose label is in none of `trial_map`, `block_map`,
`session_map` is not reported: the count computation silently counts it
as 2 trials, the name expansion silently writes nothing (the name array
keeps its 2 empty slots), and the subsequent field materialisation then
fails on the empty strings (`std::stoi` of an empty value) instead of a
resolution error ever being raised. -/
theorem c4_unresolved_label_not_reported :
    calculate_num_trials 10 c4_pt = some 2 ∧
    initialize_trial_names_helper 10 c4_pt c4_pt.experiment
      (allocate_trials_data 2) = some ["", ""] ∧
    initialize_trials_data 10 c4_pt 2 = none := by
  refine ⟨by decide, by decide, by decide⟩

/-- Abnormal outcomes of parsing: `exitc n` models `exit(n)`, `ub`
models dereferencing or advancing the token iterator past the end of the
buffer (undefined behaviour in the source), `noFuel` models a
computation still running when the fuel is exhausted. -/
inductive PErr where
  | exitc : Nat → PErr
  | ub : PErr
  | noFuel : PErr
deriving DecidableEq, Repr

/-- The local state of one `parse_def` call: the current pair, the maps
under construction, the previous lexeme, the current variable, and the
experiment vector of the file (the only part of `e_file` the loop pushes
to directly). -/
structure DefState where
  curr_pair : pair
  curr_trial : List (String × Variable)
  curr_block : List pair
  curr_session : List pair
  curr_var : Variable
  prev_lex : lexeme
  expt : List pair
deriving DecidableEq, Repr

/-- The initial state of a `parse_def` call, given the experiment vector
accumulated so far. -/
def init_def_state (expt : List pair) : DefState :=
  ⟨("", ""), [], [], [], ⟨"", "", ""⟩, NONE, expt⟩

/-- Pushes a completed pair to the structure selected by the `def_type`
string (the `if (def_type == "block") ... else if ...` chains of the
source). -/
def push_pair_to (dt : String) (st : DefState) (pr : pair) : DefState :=
  if dt = "block" then {st with curr_block := st.curr_block ++ [pr]}
  else if dt = "session" then {st with curr_session := st.curr_session ++ [pr]}
  else if dt = "experiment" then {st with expt := st.expt ++ [pr]}
  else st

/-- The check performed after `ltp++` at the bottom of the `parse_def`
loop: when the next token is the end marker, the definition is not a
trial, and the current pair holds a pending identifier without a value,
the pair is completed with count "1" and pushed.  (The source evaluates
`ltp->lex` even at the end of the buffer; an empty remainder leads to
`ub` at the next loop entry either way, so it is passed through here.) -/
def end_default_check (dt : String) (st : DefState) (toks : List lexed_token) : DefState :=
  match toks with
  | next :: _ =>
    if next.lex = END_MARKER ∧ dt ≠ "trial" ∧ st.curr_pair.1 ≠ "" ∧ st.curr_pair.2 = "" then
      push_pair_to dt {st with curr_pair := (st.curr_pair.1, "1")} (st.curr_pair.1, "1")
    else st
  | [] => st

/-- The bottom of one `parse_def` loop iteration: `prev_lex = ltp->lex`,
`ltp++`, then the end-marker default check. -/
def def_advance (dt : String) (st : DefState) (tlex : lexeme)
    (rest : List lexed_token) : DefState :=
  end_default_check dt {st with prev_lex := tlex} rest

/-- The `while (ltp->lex != END_MARKER)` loop of `parse_def`.  The
iterator is the remaining token suffix; `prev_lex` is carried in the
state (at every loop entry it equals the lexeme of the token preceding
the cursor, which is why the shadow-token branch leaves it unchanged:
the source backs the iterator up to the predecessor before the bottom of
the loop re-reads it).  The "disgusting hack" of the source — inserting
a shadow `VAR_VALUE "1"` token before the cursor when an identifier
follows a pending identifier — appears as consing the shadow token onto
the suffix.  Fuel decreases at each iteration; the loop can otherwise
run forever (the buffer grows). -/
def parse_def_loop :
    Nat → String → DefState → List lexed_token →
      Except PErr (DefState × List lexed_token)
  | 0, _, _, _ => .error .noFuel
  | f + 1, dt, st, toks =>
    match toks with
    | [] => .error .ub
    | t :: rest =>
      if t.lex = END_MARKER then .ok (st, toks)
      else
        match t.lex with
        | TYPE_NAME =>
          let st1 := if dt = "trial" then
            {st with curr_var := {st.curr_var with type_name := t.raw_token}} else st
          parse_def_loop f dt (def_advance dt st1 t.lex rest) rest
        | VAR_IDENTIFIER =>
          if dt = "trial" then
            let st1 := if st.prev_lex = TYPE_NAME then
              {st with curr_var := {st.curr_var with identifier := t.raw_token}} else st
            parse_def_loop f dt (def_advance dt st1 t.lex rest) rest
          else
            if st.curr_pair.1 ≠ "" then
              parse_def_loop f dt st (⟨VAR_VALUE, "1"⟩ :: t :: rest)
            else
              parse_def_loop f dt
                (def_advance dt {st with curr_pair := (t.raw_token, st.curr_pair.2)}
                  t.lex rest) rest
        | VAR_VALUE =>
          if st.prev_lex ≠ VAR_IDENTIFIER ∧ st.prev_lex ≠ NEW_LINE then
            parse_def_loop f dt (def_advance dt st t.lex rest) rest
          else if dt = "trial" then
            parse_def_loop f dt
              (def_advance dt
                {st with
                  curr_trial := assoc_insert st.curr_trial st.curr_var.identifier
                    {st.curr_var with value := t.raw_token},
                  curr_var := ⟨"", "", ""⟩}
                t.lex rest) rest
          else
            parse_def_loop f dt
              (def_advance dt
                (push_pair_to dt {st with curr_pair := ("", "")}
                  (st.curr_pair.1, t.raw_token))
                t.lex rest) rest
        | SINGLE_COMMENT =>
          match rest.dropWhile (fun x => !decide (x.lex = NEW_LINE)) with
          | [] => .error .ub
          | _ :: rest2 =>
            parse_def_loop f dt (def_advance dt st NEW_LINE rest2) rest2
        | _ =>
          parse_def_loop f dt (def_advance dt st t.lex rest) rest

/-- Function `parse_def` of the source: runs the loop from a fresh state, then
stores the collected structure in the map selected by `def_type` (the
experiment vector was already extended in place).  Returns the updated
trial section and the suffix beginning at the end marker. -/
def parse_def (fuel : Nat) (dt def_label : String) (toks : List lexed_token)
    (pti : parsed_trial_section) : Except PErr (parsed_trial_section × List lexed_token) :=
  match parse_def_loop fuel dt (init_def_state pti.experiment) toks with
  | .error e => .error e
  | .ok (st, toks') =>
    let pti1 := {pti with experiment := st.expt}
    let pti2 :=
      if dt = "trial" then
        {pti1 with trial_map := assoc_insert pti1.trial_map def_label st.curr_trial}
      else if dt = "block" then
        {pti1 with block_map := assoc_insert pti1.block_map def_label st.curr_block}
      else if dt = "session" then
        {pti1 with session_map := assoc_insert pti1.session_map def_label st.curr_session}
      else pti1
    .ok (pti2, toks')

/-- Function `parse_trial_section` of the source: scans for
`DEF DEF_TYPE VAR_IDENTIFIER`, advances four tokens and delegates to
`parse_def`, skipping comments to the newline sentinel; stops at the end
marker, leaving the cursor on it. -/
def parse_trial_section :
    Nat → List lexed_token → parsed_trial_section →
      Except PErr (parsed_trial_section × List lexed_token)
  | 0, _, _ => .error .noFuel
  | f + 1, toks, pti =>
    match toks with
    | [] => .error .ub
    | t :: rest =>
      if t.lex = END_MARKER then .ok (pti, toks)
      else if t.lex = DEF then
        match rest with
        | [] => .error .ub
        | [n] => if n.lex = DEF_TYPE then .error .ub else parse_trial_section f rest pti
        | n :: s :: r =>
          if n.lex = DEF_TYPE ∧ s.lex = VAR_IDENTIFIER then
            match parse_def f n.raw_token s.raw_token (r.drop 1) pti with
            | .error e => .error e
            | .ok (pti', toks') => parse_trial_section f (toks'.drop 1) pti'
          else parse_trial_section f rest pti
      else if t.lex = SINGLE_COMMENT then
        match rest.dropWhile (fun x => !decide (x.lex = NEW_LINE)) with
        | [] => .error .ub
        | _ :: rest2 => parse_trial_section f rest2 pti
      else parse_trial_section f rest pti

/-- The loop of `parse_var_section` (both overloads of the source have
identical logic): on `TYPE_NAME VAR_IDENTIFIER VAR_VALUE` record a
variable keyed by the identifier and advance past the triple; skip
comments to the newline sentinel; ignore everything else; stop at the
end marker, leaving the cursor on it. -/
def parse_var_section_loop :
    Nat → List lexed_token → List (String × Variable) →
      Except PErr (List (String × Variable) × List lexed_token)
  | 0, _, _ => .error .noFuel
  | f + 1, toks, pm =>
    match toks with
    | [] => .error .ub
    | t :: rest =>
      if t.lex = END_MARKER then .ok (pm, toks)
      else if t.lex = TYPE_NAME then
        match rest with
        | [] => .error .ub
        | [n] => if n.lex = VAR_IDENTIFIER then .error .ub
                 else parse_var_section_loop f rest pm
        | n :: s :: r =>
          if n.lex = VAR_IDENTIFIER ∧ s.lex = VAR_VALUE then
            parse_var_section_loop f r
              (assoc_insert pm n.raw_token ⟨t.raw_token, n.raw_token, s.raw_token⟩)
          else parse_var_section_loop f rest pm
      else if t.lex = SINGLE_COMMENT then
        match rest.dropWhile (fun x => !decide (x.lex = NEW_LINE)) with
        | [] => .error .ub
        | _ :: rest2 => parse_var_section_loop f rest2 pm
      else parse_var_section_loop f rest pm

/-- Function `parse_var_section` of the source: the loop from an empty section,
then `parsed_var_sections[region_type] = curr_section`. -/
def parse_var_section (fuel : Nat) (rt : String) (toks : List lexed_token)
    (secs : List (String × parsed_var_section)) :
    Except PErr (List (String × parsed_var_section) × List lexed_token) :=
  match parse_var_section_loop fuel toks [] with
  | .error e => .error e
  | .ok (pm, toks') => .ok (assoc_insert secs rt ⟨pm⟩, toks')

/-- Function `parse_region` of the experiment-file overload: dispatch on the
region type — `mf_input`, `activity`, `trial_spec` to the variable
section parser, `trial_def` to the trial section parser, and any other
region type to a scan for nested `BEGIN REGION REGION_TYPE` headers,
each recursively parsed (the source advances four tokens, parses the
nested region, then steps past its end marker). -/
def parse_region :
    Nat → String → List lexed_token → parsed_expt_file →
      Except PErr (parsed_expt_file × List lexed_token)
  | 0, _, _, _ => .error .noFuel
  | f + 1, rt, toks, e =>
    if rt = "mf_input" ∨ rt = "activity" ∨ rt = "trial_spec" then
      match parse_var_section f rt toks e.parsed_var_sections with
      | .error err => .error err
      | .ok (secs, toks') => .ok ({e with parsed_var_sections := secs}, toks')
    else if rt = "trial_def" then
      match parse_trial_section f toks e.parsed_trial_info with
      | .error err => .error err
      | .ok (pti, toks') => .ok ({e with parsed_trial_info := pti}, toks')
    else
      match toks with
      | [] => .error .ub
      | t :: rest =>
        if t.lex = END_MARKER then .ok (e, toks)
        else if t.lex = BEGIN_MARKER then
          match rest with
          | [] => .error .ub
          | [n] => if n.lex = REGION then .error .ub else parse_region f rt rest e
          | n :: s :: r =>
            if n.lex = REGION ∧ s.lex = REGION_TYPE then
              match parse_region f s.raw_token (r.drop 1) e with
              | .error err => .error err
              | .ok (e', toks') => parse_region f rt (toks'.drop 1) e'
            else parse_region f rt rest e
        else if t.lex = SINGLE_COMMENT then
          match rest.dropWhile (fun x => !decide (x.lex = NEW_LINE)) with
          | [] => .error .ub
          | _ :: rest2 => parse_region f rt rest2 e
        else parse_region f rt rest e

/-- Function `parse_region` of the build-file overload: `connectivity` and
`activity` route to the variable section parser; any other region type
scans for nested regions. -/
def parse_region_build :
    Nat → String → List lexed_token → parsed_build_file →
      Except PErr (parsed_build_file × List lexed_token)
  | 0, _, _, _ => .error .noFuel
  | f + 1, rt, toks, b =>
    if rt = "connectivity" ∨ rt = "activity" then
      match parse_var_section f rt toks b.parsed_var_sections with
      | .error err => .error err
      | .ok (secs, toks') => .ok (⟨secs⟩, toks')
    else
      match toks with
      | [] => .error .ub
      | t :: rest =>
        if t.lex = END_MARKER then .ok (b, toks)
        else if t.lex = BEGIN_MARKER then
          match rest with
          | [] => .error .ub
          | [n] => if n.lex = REGION then .error .ub else parse_region_build f rt rest b
          | n :: s :: r =>
            if n.lex = REGION ∧ s.lex = REGION_TYPE then
              match parse_region_build f s.raw_token (r.drop 1) b with
              | .error err => .error err
              | .ok (b', toks') => parse_region_build f rt (toks'.drop 1) b'
            else parse_region_build f rt rest b
        else if t.lex = SINGLE_COMMENT then
          match rest.dropWhile (fun x => !decide (x.lex = NEW_LINE)) with
          | [] => .error .ub
          | _ :: rest2 => parse_region_build f rt rest2 b
        else parse_region_build f rt rest b

/-- The `while (ltp->lex != BEGIN_MARKER)` scan opening both
`parse_lexed_expt_file` and `parse_lexed_build_file`: comments skip to
the newline sentinel, newlines are stepped over, and any other token
before the first begin marker is `exit(1)`.  Running off the end of the
buffer (a document with no reachable begin marker) dereferences the end
iterator. -/
def prescan : Nat → List lexed_token → Except PErr (List lexed_token)
  | 0, _ => .error .noFuel
  | f + 1, toks =>
    match toks with
    | [] => .error .ub
    | t :: rest =>
      if t.lex = BEGIN_MARKER then .ok toks
      else if t.lex = SINGLE_COMMENT then
        match rest.dropWhile (fun x => !decide (x.lex = NEW_LINE)) with
        | [] => .error .ub
        | _ :: rest2 => prescan f rest2
      else if t.lex = NEW_LINE then prescan f rest
      else .error (.exitc 1)

/-- The empty experiment document handed to the parser by its caller. -/
def empty_expt_file : parsed_expt_file := ⟨[], ⟨[], [], [], []⟩⟩

/-- The empty build document handed to the parser by its caller. -/
def empty_build_file : parsed_build_file := ⟨[]⟩

/-- Function `parse_lexed_expt_file` of the source: scan to the first begin
marker; the next token must be a `REGION` lexeme (else `exit(4)`) with
raw text "filetype" (else `exit(2)`), and the token after it must have
raw text "run" (else `exit(3)`); then advance four tokens and parse the
region named by that raw text. -/
def parse_lexed_expt_file (fuel : Nat) (toks : List lexed_token) :
    Except PErr parsed_expt_file :=
  match prescan fuel toks with
  | .error e => .error e
  | .ok toks1 =>
    match toks1 with
    | [] => .error .ub
    | [_] => .error .ub
    | _ :: n :: rest2 =>
      if n.lex = REGION then
        if n.raw_token ≠ "filetype" then .error (.exitc 2)
        else
          match rest2 with
          | [] => .error .ub
          | s :: r =>
            if s.raw_token ≠ "run" then .error (.exitc 3)
            else
              match parse_region fuel s.raw_token (r.drop 1) empty_expt_file with
              | .error err => .error err
              | .ok (e, _) => .ok e
      else .error (.exitc 4)

/-- Function `parse_lexed_build_file` of the source: as the experiment entry
point, with expected region type "build". -/
def parse_lexed_build_file (fuel : Nat) (toks : List lexed_token) :
    Except PErr parsed_build_file :=
  match prescan fuel toks with
  | .error e => .error e
  | .ok toks1 =>
    match toks1 with
    | [] => .error .ub
    | [_] => .error .ub
    | _ :: n :: rest2 =>
      if n.lex = REGION then
        if n.raw_token ≠ "filetype" then .error (.exitc 2)
        else
          match rest2 with
          | [] => .error .ub
          | s :: r =>
            if s.raw_token ≠ "build" then .error (.exitc 3)
            else
              match parse_region_build fuel s.raw_token (r.drop 1) empty_build_file with
              | .error err => .error err
              | .ok (b, _) => .ok b
      else .error (.exitc 4)

/-- The experiment pipeline end to end: tokenize the lines of the file,
lex, parse, then resolve the trial hierarchy into the flat table. -/
def run_experiment (fuel : Nat) (lines : List String) : Option trials_data :=
  match parse_lexed_expt_file fuel (lex_tokenized_file (tokenize_file lines)) with
  | .error _ => none
  | .ok e => translate_parsed_trials fuel e

/-- The experiment file of claim C2 with the definition bodies laid out
exactly as the claim writes them: the whole `def trial ... end` text on
one line and the whole `def experiment  t1 5 end` text on one line (the
elided trial fields filled in; the double space of the claim kept). -/
def c2_lines_as_written : List String :=
  ["begin filetype run",
   "begin section trial_def",
   "def trial t1 int use_cs 1 int cs_onset 100 int use_pfpc_plast 0 int use_mfnc_plast 0 int cs_len 200 float cs_percent 50.0 int use_us 1 int us_onset 300 end",
   "def experiment  t1 5 end",
   "end",
   "end"]

/-- The experiment file of claim C2 in the layout the parser actually
requires: every `def` header on its own line (the parser advances four
tokens past `def <kind> <label>`, consuming the newline) and the
experiment definition given an explicit label, with its `t1 5` pair on
the following line. -/
def c2_amended_lines : List String :=
  ["begin filetype run",
   "begin section trial_def",
   "def trial t1",
   "int use_cs 1",
   "int use_pfpc_plast 0",
   "int use_mfnc_plast 0",
   "int cs_onset 100",
   "int cs_len 200",
   "float cs_percent 50.0",
   "int use_us 1",
   "int us_onset 300",
   "end",
   "def experiment e1",
   "t1 5",
   "end",
   "end",
   "end"]

/-- C2 counterexample: on a file containing the claim's literal text
`def trial t1 int use_cs 1 int cs_onset 100 ... end` and
`def experiment  t1 5 end`, the pipeline yields `num_trials = 0`, not 5:
`parse_trial_section` consumes `t1` as the definition label and skips a
fourth token, so the `(t1, 5)` pair never reaches the experiment vector,
which stays empty — and `1 * 0 = 0` trials result. -/
theorem c2_counterexample :
    (run_experiment 300 c2_lines_as_written).map (fun td => td.num_trials) = some 0 ∧
    (run_experiment 300 c2_lines_as_written).map (fun td => td.num_trials) ≠ some 5 := by
  have h : (run_experiment 300 c2_lines_as_written).map (fun td => td.num_trials) =
      some 0 := by rfl
  exact ⟨h, by rw [h]; decide⟩

/-- C2 amended: the spec's end-to-end example holds once each `def`
header stands on its own line and the experiment definition carries an
explicit label: parsing followed by trial resolution yields
`num_trials = 5`, `trial_names = [t1,t1,t1,t1,t1]`,
`use_css = [1,1,1,1,1]` and `cs_onsets = [100,100,100,100,100]`. -/
theorem c2_amended :
    (run_experiment 300 c2_amended_lines).map
      (fun td => (td.num_trials, td.trial_names, td.use_css, td.cs_onsets)) =
    some (5, ["t1", "t1", "t1", "t1", "t1"], [1, 1, 1, 1, 1],
          [100, 100, 100, 100, 100]) := by rfl

/-- The experiment file of the C3 counterexample: inside
`def block b ... end`, the identifier `x` stands alone on its line and
the value `5` on the next line. -/
def c3_lines : List String :=
  ["begin filetype run",
   "begin section trial_def",
   "def block b",
   "x",
   "5",
   "end",
   "end",
   "end"]

/-- C3 counterexample: in the lexed stream of `c3_lines` the identifier
token `x` is immediately followed by the `NEW_LINE` sentinel — not by a
value token — yet the resulting block entry is `[(x, 5)]`, not
`[(x, 1)]`: the `VAR_VALUE` branch of `parse_def` also accepts a
previous lexeme of `NEW_LINE`, so a value on the next line is still
attached to the pending identifier, contradicting the claim that every
identifier not immediately followed by a value yields count "1". -/
theorem c3_counterexample :
    ((lex_tokenized_file (tokenize_file c3_lines)).drop 12).take 2 =
      [⟨VAR_IDENTIFIER, "x"⟩, ⟨NEW_LINE, "\n"⟩] ∧
    (match parse_lexed_expt_file 300 (lex_tokenized_file (tokenize_file c3_lines)) with
     | .ok e => assoc_lookup e.parsed_trial_info.block_map "b"
     | .error _ => none) = some [("x", "5")] := by
  exact ⟨by rfl, by rfl⟩

/-- C5 counterexample: on the empty lexed document (the lexing of an
empty file) both entry points dereference the end of the token buffer
(`PErr.ub`) instead of failing fatally with a diagnostic exit code —
and the document's first region is certainly not `filetype`/run or
build — so "fails fatally with a distinguishing exit code unless the
first region is filetype run/build" does not hold of every lexed
document. -/
theorem c5_counterexample :
    parse_lexed_expt_file 9 (lex_tokenized_file (tokenize_file [])) = .error .ub ∧
    parse_lexed_build_file 9 (lex_tokenized_file (tokenize_file [])) = .error .ub := by
  exact ⟨rfl, rfl⟩

/-- C5 amended: for every lexed document on which the initial scan
(skipping newlines and comments, and exiting with code 1 on any other
token before a begin marker) reaches a `BEGIN_MARKER` followed by at
least two tokens, the entry points behave as the claim says: exit code 4
when the token after `begin` is not a `REGION` lexeme, exit code 2 when
its text is not "filetype", exit code 3 when the region-type token's
text is not "run" (respectively "build"), and otherwise parsing proceeds
into the region parser with no exit from the header logic.  (Documents
whose scan never reaches such a position run off the token buffer
instead, as the counterexample shows.) -/
theorem c5_amended :
    ∀ (fuel : Nat) (toks : List lexed_token) (b n s : lexed_token)
      (r : List lexed_token),
      prescan fuel toks = .ok (b :: n :: s :: r) →
      ((n.lex = REGION ∧ n.raw_token ≠ "filetype") →
          parse_lexed_expt_file fuel toks = .error (.exitc 2) ∧
          parse_lexed_build_file fuel toks = .error (.exitc 2)) ∧
      (n.lex ≠ REGION →
          parse_lexed_expt_file fuel toks = .error (.exitc 4) ∧
          parse_lexed_build_file fuel toks = .error (.exitc 4)) ∧
      ((n.lex = REGION ∧ n.raw_token = "filetype" ∧ s.raw_token ≠ "run") →
          parse_lexed_expt_file fuel toks = .error (.exitc 3)) ∧
      ((n.lex = REGION ∧ n.raw_token = "filetype" ∧ s.raw_token ≠ "build") →
          parse_lexed_build_file fuel toks = .error (.exitc 3)) ∧
      ((n.lex = REGION ∧ n.raw_token = "filetype" ∧ s.raw_token = "run") →
          parse_lexed_expt_file fuel toks =
            (parse_region fuel s.raw_token (r.drop 1) empty_expt_file).map Prod.fst) ∧
      ((n.lex = REGION ∧ n.raw_token = "filetype" ∧ s.raw_token = "build") →
          parse_lexed_build_file fuel toks =
            (parse_region_build fuel s.raw_token (r.drop 1) empty_build_file).map
              Prod.fst) := by
  intro fuel toks b n s r hpre
  refine ⟨?_, ?_, ?_, ?_, ?_, ?_⟩
  · rintro ⟨hn, hraw⟩
    constructor <;>
      simp [parse_lexed_expt_file, parse_lexed_build_file, hpre, hn, hraw]
  · intro hn
    constructor <;>
      simp [parse_lexed_expt_file, parse_lexed_build_file, hpre, hn]
  · rintro ⟨hn, hraw, hs⟩
    simp [parse_lexed_expt_file, hpre, hn, hraw, hs]
  · rintro ⟨hn, hraw, hs⟩
    simp [parse_lexed_build_file, hpre, hn, hraw, hs]
  · rintro ⟨hn, hraw, hs⟩
    cases hp : parse_region fuel "run" r.tail empty_expt_file with
    | error err =>
      simp [parse_lexed_expt_file, hpre, hn, hraw, hs, List.drop_one, hp, Except.map]
    | ok pr =>
      obtain ⟨e1, t1⟩ := pr
      simp [parse_lexed_expt_file, hpre, hn, hraw, hs, List.drop_one, hp, Except.map]
  · rintro ⟨hn, hraw, hs⟩
    cases hp : parse_region_build fuel "build" r.tail empty_build_file with
    | error err =>
      simp [parse_lexed_build_file, hpre, hn, hraw, hs, List.drop_one, hp, Except.map]
    | ok pr =>
      obtain ⟨b1, t1⟩ := pr
      simp [parse_lexed_build_file, hpre, hn, hraw, hs, List.drop_one, hp, Except.map]

/-- C5 witness: the experiment entry point applied to the lexing of
`begin filetype build` exits with code 3 ("build" does not name an
experiment file), through the amended header theorem. -/
theorem c5_amended_witness :
    parse_lexed_expt_file 9
      (lex_tokenized_file (tokenize_file ["begin filetype build"])) =
      .error (.exitc 3) := by
  have h := c5_amended 9
    (lex_tokenized_file (tokenize_file ["begin filetype build"]))
    ⟨BEGIN_MARKER, "begin"⟩ ⟨REGION, "filetype"⟩ ⟨REGION_TYPE, "build"⟩
    [⟨NEW_LINE, "\n"⟩] (by rfl)
  exact h.2.2.1 ⟨rfl, rfl, by decide⟩

/-- The experiment file of the C8 failing input: a well-formed document
(every begin marker has a matching end marker, and the hierarchy
reference graph is trivially acyclic) whose block definition contains a
token `??` that lexes to `NONE` between two identifiers. -/
def c8_lines : List String :=
  ["begin filetype run",
   "begin section trial_def",
   "def block b",
   "x ?? y",
   "end",
   "end",
   "end"]

/-- The cycle suffix inside the `parse_def` loop on `c8_lines`: the
cursor sits on the identifier `y` with the identifier `x` pending. -/
def c8_suffix : List lexed_token :=
  [⟨VAR_IDENTIFIER, "y"⟩, ⟨NEW_LINE, "\n"⟩,
   ⟨END_MARKER, "end"⟩, ⟨NEW_LINE, "\n"⟩,
   ⟨END_MARKER, "end"⟩, ⟨NEW_LINE, "\n"⟩,
   ⟨END_MARKER, "end"⟩, ⟨NEW_LINE, "\n"⟩]

/-- The looping state: pair `(x, "")` pending and previous lexeme
`VAR_VALUE` (the last processed token was an inserted shadow token). -/
def c8_stA : DefState :=
  ⟨("x", ""), [], [], [], ⟨"", "", ""⟩, VAR_VALUE, []⟩

/-- The token suffix at entry to `parse_def` on `c8_lines`. -/
def c8_def_toks : List lexed_token :=
  ⟨VAR_IDENTIFIER, "x"⟩ :: ⟨NONE, "??"⟩ :: c8_suffix

/-- The token suffix at entry to `parse_trial_section` on `c8_lines`. -/
def c8_pts_toks : List lexed_token :=
  ⟨DEF, "def"⟩ :: ⟨DEF_TYPE, "block"⟩ :: ⟨VAR_IDENTIFIER, "b"⟩ :: ⟨NEW_LINE, "\n"⟩ ::
    c8_def_toks

/-- The token suffix at entry to the `run` region scan on `c8_lines`. -/
def c8_run_toks : List lexed_token :=
  ⟨BEGIN_MARKER, "begin"⟩ :: ⟨REGION, "section"⟩ :: ⟨REGION_TYPE, "trial_def"⟩ ::
    ⟨NEW_LINE, "\n"⟩ :: c8_pts_toks

/-- The full lexed token list of `c8_lines`. -/
def c8_toks : List lexed_token :=
  ⟨BEGIN_MARKER, "begin"⟩ :: ⟨REGION, "filetype"⟩ :: ⟨REGION_TYPE, "run"⟩ ::
    ⟨NEW_LINE, "\n"⟩ :: c8_run_toks

theorem c8_lex_eq : lex_tokenized_file (tokenize_file c8_lines) = c8_toks := by rfl

/-- The two-state cycle of the shadow-token hack: on the identifier `y`
with `x` pending, the loop inserts a shadow `VAR_VALUE "1"` token; the
shadow is then rejected (the previous lexeme is `VAR_VALUE`, neither
`VAR_IDENTIFIER` nor `NEW_LINE`), the pending pair survives, and the
cursor is back on `y` — at every fuel, the loop only runs out of
fuel. -/
theorem c8_cycle :
    ∀ g, parse_def_loop g "block" c8_stA c8_suffix = .error .noFuel ∧
      parse_def_loop g "block" c8_stA (⟨VAR_VALUE, "1"⟩ :: c8_suffix) =
        .error .noFuel := by
  intro g
  induction g with
  | zero => exact ⟨rfl, rfl⟩
  | succ g ih =>
    constructor
    · have step : parse_def_loop (g + 1) "block" c8_stA c8_suffix =
          parse_def_loop g "block" c8_stA (⟨VAR_VALUE, "1"⟩ :: c8_suffix) := rfl
      rw [step]
      exact ih.2
    · have step : parse_def_loop (g + 1) "block" c8_stA
          (⟨VAR_VALUE, "1"⟩ :: c8_suffix) =
          parse_def_loop g "block" c8_stA c8_suffix := rfl
      rw [step]
      exact ih.1

theorem c8_def_entry :
    ∀ g, parse_def_loop g "block" (init_def_state []) c8_def_toks =
      .error .noFuel := by
  intro g
  rcases g with _ | (_ | (_ | (_ | g)))
  · rfl
  · rfl
  · rfl
  · rfl
  · have step : parse_def_loop (g + 4) "block" (init_def_state []) c8_def_toks =
        parse_def_loop g "block" c8_stA c8_suffix := rfl
    rw [step]
    exact (c8_cycle g).1

theorem c8_parse_def :
    ∀ g, parse_def g "block" "b" c8_def_toks empty_expt_file.parsed_trial_info =
      .error .noFuel := by
  intro g
  unfold parse_def
  rw [show init_def_state empty_expt_file.parsed_trial_info.experiment =
    init_def_state [] from rfl]
  rw [c8_def_entry g]

theorem c8_pts :
    ∀ g, parse_trial_section (g + 1) c8_pts_toks empty_expt_file.parsed_trial_info =
      .error .noFuel := by
  intro g
  have step : parse_trial_section (g + 1) c8_pts_toks
      empty_expt_file.parsed_trial_info =
      (match parse_def g "block" "b" c8_def_toks
          empty_expt_file.parsed_trial_info with
       | .error e => .error e
       | .ok (pti', toks') => parse_trial_section g (toks'.drop 1) pti') := rfl
  rw [step, c8_parse_def g]

theorem c8_region_trial_def :
    ∀ g, parse_region (g + 2) "trial_def" c8_pts_toks empty_expt_file =
      .error .noFuel := by
  intro g
  have step : parse_region (g + 2) "trial_def" c8_pts_toks empty_expt_file =
      (match parse_trial_section (g + 1) c8_pts_toks
          empty_expt_file.parsed_trial_info with
       | .error err => .error err
       | .ok (pti, toks') =>
         .ok ({empty_expt_file with parsed_trial_info := pti}, toks')) := rfl
  rw [step, c8_pts g]

theorem c8_region_run :
    ∀ g, parse_region (g + 3) "run" c8_run_toks empty_expt_file =
      .error .noFuel := by
  intro g
  have step : parse_region (g + 3) "run" c8_run_toks empty_expt_file =
      (match parse_region (g + 2) "trial_def" c8_pts_toks empty_expt_file with
       | .error err => .error err
       | .ok (e', toks') => parse_region (g + 2) "run" (toks'.drop 1) e') := rfl
  rw [step, c8_region_trial_def g]

/-- C8: the failing input `c8_lines` is well formed — two begin markers,
three end markers (one per begin marker and one closing the single
definition), no hierarchy reference at all, hence acyclic — yet region
parsing does not terminate: at every fuel the parser is still running
(`noFuel`), because `parse_def` keeps inserting shadow tokens in front
of the identifier `y` forever.  It never produces a document and never
exits. -/
theorem c8_parsing_diverges :
    (∀ fuel, parse_lexed_expt_file fuel (lex_tokenized_file (tokenize_file c8_lines)) =
        .error .noFuel) ∧
    ((lex_tokenized_file (tokenize_file c8_lines)).filter
      (fun tk => decide (tk.lex = BEGIN_MARKER))).length = 2 ∧
    ((lex_tokenized_file (tokenize_file c8_lines)).filter
      (fun tk => decide (tk.lex = END_MARKER))).length = 3 := by
  refine ⟨?_, by rfl, by rfl⟩
  intro fuel
  rw [c8_lex_eq]
  rcases fuel with _ | (_ | (_ | f))
  · rfl
  · rfl
  · rfl
  · have step : parse_lexed_expt_file (f + 3) c8_toks =
        (match parse_region (f + 3) "run" c8_run_toks empty_expt_file with
         | .error err => (.error err : Except PErr parsed_expt_file)
         | .ok (e, _) => .ok e) := rfl
    rw [step, c8_region_run f]

/-- C3 amended: in a block, session or experiment definition, an
identifier whose next token is another identifier, or the end marker,
yields a pair with count "1"; an identifier immediately followed by a
value token yields a pair carrying that value.  However, "not
immediately followed by a value" does not in general force count "1":
a value separated from its identifier only by the `NEW_LINE` sentinel is
still attached to the pending identifier (fourth conjunct; the
counterexample exhibits this in a full document).  Stated as the step
behaviour of the `parse_def` loop: (1) on an identifier with an
identifier pending (previous lexeme an identifier or newline), the
pending pair is recorded with count "1" and the cursor stays on the new
identifier; (2) on an identifier directly before the end marker, the
loop returns with the pair recorded with count "1"; (3) on an
identifier immediately followed by a value, the pair carries that value;
(4) on the newline sentinel followed by a value with an identifier
pending, the pair carries that value. -/
theorem c3_amended :
    (∀ (f : Nat) (dt : String) (st : DefState) (y : lexed_token)
       (rest : List lexed_token),
       (dt = "block" ∨ dt = "session" ∨ dt = "experiment") →
       y.lex = VAR_IDENTIFIER → st.curr_pair.1 ≠ "" →
       (st.prev_lex = VAR_IDENTIFIER ∨ st.prev_lex = NEW_LINE) →
       parse_def_loop (f + 2) dt st (y :: rest) =
         parse_def_loop f dt
           {push_pair_to dt {st with curr_pair := ("", "")} (st.curr_pair.1, "1") with
              prev_lex := VAR_VALUE} (y :: rest)) ∧
    (∀ (f : Nat) (dt : String) (st : DefState) (y e : lexed_token)
       (rest : List lexed_token),
       (dt = "block" ∨ dt = "session" ∨ dt = "experiment") →
       y.lex = VAR_IDENTIFIER → y.raw_token ≠ "" →
       st.curr_pair.1 = "" → st.curr_pair.2 = "" → e.lex = END_MARKER →
       parse_def_loop (f + 2) dt st (y :: e :: rest) =
         .ok ({push_pair_to dt {st with curr_pair := (y.raw_token, "1")}
                 (y.raw_token, "1") with prev_lex := VAR_IDENTIFIER},
              e :: rest)) ∧
    (∀ (f : Nat) (dt : String) (st : DefState) (y v : lexed_token)
       (rest : List lexed_token),
       (dt = "block" ∨ dt = "session" ∨ dt = "experiment") →
       y.lex = VAR_IDENTIFIER → st.curr_pair.1 = "" → v.lex = VAR_VALUE →
       parse_def_loop (f + 2) dt st (y :: v :: rest) =
         parse_def_loop f dt
           {push_pair_to dt {st with curr_pair := ("", "")}
              (y.raw_token, v.raw_token) with prev_lex := VAR_VALUE} rest) ∧
    (∀ (f : Nat) (dt : String) (st : DefState) (nl v : lexed_token)
       (rest : List lexed_token),
       (dt = "block" ∨ dt = "session" ∨ dt = "experiment") →
       st.curr_pair.1 ≠ "" → nl.lex = NEW_LINE → v.lex = VAR_VALUE →
       parse_def_loop (f + 2) dt st (nl :: v :: rest) =
         parse_def_loop f dt
           {push_pair_to dt {st with curr_pair := ("", "")}
              (st.curr_pair.1, v.raw_token) with prev_lex := VAR_VALUE} rest) := by
  refine ⟨?_, ?_, ?_, ?_⟩
  · intro f dt st y rest hdt hy hp hprev
    have h1 : parse_def_loop (f + 2) dt st (y :: rest) =
        parse_def_loop (f + 1) dt st (⟨VAR_VALUE, "1"⟩ :: y :: rest) := by
      rcases hdt with h | h | h <;> subst h <;>
        simp [parse_def_loop, hy, hp]
    rw [h1]
    have h2 : parse_def_loop (f + 1) dt st (⟨VAR_VALUE, "1"⟩ :: y :: rest) =
        parse_def_loop f dt
          (def_advance dt
            (push_pair_to dt {st with curr_pair := ("", "")} (st.curr_pair.1, "1"))
            VAR_VALUE (y :: rest)) (y :: rest) := by
      rcases hdt with h | h | h <;> subst h <;>
        rcases hprev with h' | h' <;>
          simp [parse_def_loop, h']
    rw [h2]
    have h3 : def_advance dt
        (push_pair_to dt {st with curr_pair := ("", "")} (st.curr_pair.1, "1"))
        VAR_VALUE (y :: rest) =
        {push_pair_to dt {st with curr_pair := ("", "")} (st.curr_pair.1, "1") with
           prev_lex := VAR_VALUE} := by
      simp [def_advance, end_default_check, hy]
    rw [h3]
  · intro f dt st y e rest hdt hy hyr hp hq he
    have h1 : parse_def_loop (f + 2) dt st (y :: e :: rest) =
        parse_def_loop (f + 1) dt
          {push_pair_to dt {st with curr_pair := (y.raw_token, "1")}
             (y.raw_token, "1") with prev_lex := VAR_IDENTIFIER} (e :: rest) := by
      rcases hdt with h | h | h <;> subst h <;>
        simp [parse_def_loop, def_advance, end_default_check, push_pair_to,
          hy, hyr, hp, hq, he]
    rw [h1]
    rcases hdt with h | h | h <;> subst h <;>
      simp [parse_def_loop, he]
  · intro f dt st y v rest hdt hy hp hv
    have h1 : parse_def_loop (f + 2) dt st (y :: v :: rest) =
        parse_def_loop (f + 1) dt
          {st with
            curr_pair := (y.raw_token, st.curr_pair.2),
            prev_lex := VAR_IDENTIFIER} (v :: rest) := by
      rcases hdt with h | h | h <;> subst h <;>
        simp [parse_def_loop, def_advance, end_default_check, hy, hp, hv]
    rw [h1]
    have h2 : parse_def_loop (f + 1) dt
        {st with
          curr_pair := (y.raw_token, st.curr_pair.2),
          prev_lex := VAR_IDENTIFIER} (v :: rest) =
        parse_def_loop f dt
          {push_pair_to dt {st with curr_pair := ("", "")}
             (y.raw_token, v.raw_token) with prev_lex := VAR_VALUE} rest := by
      rcases hdt with h | h | h <;> subst h <;>
        cases rest <;>
          simp [parse_def_loop, def_advance, end_default_check, push_pair_to, hv]
    rw [h2]
  · intro f dt st nl v rest hdt hp hnl hv
    have h1 : parse_def_loop (f + 2) dt st (nl :: v :: rest) =
        parse_def_loop (f + 1) dt {st with prev_lex := NEW_LINE} (v :: rest) := by
      rcases hdt with h | h | h <;> subst h <;>
        simp [parse_def_loop, def_advance, end_default_check, hnl, hv]
    rw [h1]
    have h2 : parse_def_loop (f + 1) dt {st with prev_lex := NEW_LINE} (v :: rest) =
        parse_def_loop f dt
          {push_pair_to dt {st with curr_pair := ("", "")}
             (st.curr_pair.1, v.raw_token) with prev_lex := VAR_VALUE} rest := by
      rcases hdt with h | h | h <;> subst h <;>
        cases rest <;>
          simp [parse_def_loop, def_advance, end_default_check, push_pair_to, hv]
    rw [h2]

/-- C3 witness: conjunct (2) of the amended claim applied to the
identifier `x` directly before the end marker in a block definition:
the loop returns with the pair `(x, "1")` recorded in the block list. -/
theorem c3_amended_witness :
    parse_def_loop (3 + 2) "block" (init_def_state [])
      [⟨VAR_IDENTIFIER, "x"⟩, ⟨END_MARKER, "end"⟩] =
    .ok (⟨("x", "1"), [], [("x", "1")], [], ⟨"", "", ""⟩, VAR_IDENTIFIER, []⟩,
         [⟨END_MARKER, "end"⟩]) := by
  have h := (c3_amended.2.1) 3 "block" (init_def_state [])
    ⟨VAR_IDENTIFIER, "x"⟩ ⟨END_MARKER, "end"⟩ []
    (Or.inl rfl) rfl (by decide) rfl rfl rfl
  simpa [push_pair_to, init_def_state] using h

/-- C10: a raw token consisting only of a sign or only of a dot matches
no keyword and fails the identifier pattern, but matches the numeric
value pattern (every component of which is optional), so the lexer
classifies it `VAR_VALUE`, not `NONE`. -/
theorem c10_sign_dot_are_var_values :
    (token_defs "+" = none ∧ match_var_id "+" = false ∧ match_var_val "+" = true ∧
      lex_one_token "+" = ⟨VAR_VALUE, "+"⟩) ∧
    (token_defs "-" = none ∧ match_var_id "-" = false ∧ match_var_val "-" = true ∧
      lex_one_token "-" = ⟨VAR_VALUE, "-"⟩) ∧
    (token_defs "." = none ∧ match_var_id "." = false ∧ match_var_val "." = true ∧
      lex_one_token "." = ⟨VAR_VALUE, "."⟩) := by
  refine ⟨⟨?_, ?_, ?_, ?_⟩, ⟨?_, ?_, ?_, ?_⟩, ⟨?_, ?_, ?_, ?_⟩⟩ <;> decide

end FileParse
